import Mathlib

/-!
# Camera and Scene of the OpenGL practice renderer

A shallow embedding of `src/Camera.cpp`, of `Scene::draw` and `Scene::cleanUp`
(`src/Scene.cpp`) and of the modifier overrides of `src/Objects/Object.h`.

Numbers: the program computes with `float`/`double`.  The embedding is written
over an arbitrary linearly ordered field `F` (exact arithmetic, no rounding and
no NaN); it is evaluated at `ℚ` and, for the trigonometric part, read at `ℝ`.
The library functions the camera calls (`cos`, `sin`, `sqrt`, the constant π)
are passed in as a record `MathOps F`, so every definition stays executable.
-/

/-! ## glm vectors -/

/-- Three-component vector (`glm::vec3`). -/
structure Vec3 (F : Type) where
  x : F
  y : F
  z : F
  deriving DecidableEq, Repr

/-- The libm / glm primitives used by the camera, as parameters of the model. -/
structure MathOps (F : Type) where
  cos : F → F
  sin : F → F
  sqrt : F → F
  pi : F

namespace Vec3

variable {F : Type} [LinearOrderedField F]

/-- Component-wise sum (`operator+`). -/
def add (a b : Vec3 F) : Vec3 F := ⟨a.x + b.x, a.y + b.y, a.z + b.z⟩

/-- Component-wise difference (`operator-`). -/
def sub (a b : Vec3 F) : Vec3 F := ⟨a.x - b.x, a.y - b.y, a.z - b.z⟩

/-- Vector times scalar (`operator*`). -/
def scale (a : Vec3 F) (s : F) : Vec3 F := ⟨a.x * s, a.y * s, a.z * s⟩

/-- The function `glm::dot`. -/
def dot (a b : Vec3 F) : F := a.x * b.x + a.y * b.y + a.z * b.z

/-- The function `glm::cross`. -/
def cross (a b : Vec3 F) : Vec3 F :=
  ⟨a.y * b.z - b.y * a.z, a.z * b.x - b.z * a.x, a.x * b.y - b.x * a.y⟩

/-- The function `glm::normalize`: `v * inversesqrt(dot(v, v))`. -/
def normalize (M : MathOps F) (v : Vec3 F) : Vec3 F :=
  scale v (1 / M.sqrt (dot v v))

end Vec3

/-- The function `glm::radians`: degrees times π/180. -/
def radians {F : Type} [LinearOrderedField F] (M : MathOps F) (deg : F) : F :=
  deg * (M.pi / 180)

/-! ## Camera (`src/Camera.cpp`) -/

/-- Modelled from the spec: the `Direction` enumeration is declared in
`Camera.h`, which is not among the sources; the spec lists its four
enumerators.  (The `default: break;` branch of `Camera::Move` is therefore
never taken in the model.) -/
inductive Direction where
  | FORWARD
  | BACKWARD
  | LEFT
  | RIGHT
  deriving DecidableEq, Repr

/-- The data members of `Camera` that `Camera.cpp` reads and writes. -/
structure Camera (F : Type) where
  _position : Vec3 F
  _facing : Vec3 F
  _up : Vec3 F
  _yaw : F
  _pitch : F
  _zoom : F
  _height : F
  _jumpTime : F
  _mouseSensitivity : F
  _xpos : F
  _ypos : F
  deriving DecidableEq, Repr

section camera

variable {F : Type} [LinearOrderedField F]

/-- The constant `const float HEIGHT = 0.8f;`. -/
def HEIGHT : F := 0.8

/-- The constructor `Camera::Camera(double xpos, double ypos)`. -/
def Camera.new (xpos ypos : F) : Camera F :=
  { _position := ⟨0, 0, 3⟩
    _facing := ⟨0, 0, -1⟩
    _up := ⟨0, 1, 0⟩
    _yaw := -90
    _pitch := 0
    _zoom := 45
    _height := HEIGHT
    _jumpTime := -1
    _mouseSensitivity := 0.15
    _xpos := xpos
    _ypos := ypos }

/-- The method `Camera::Look(double xpos, double ypos)`. -/
def Camera.Look (M : MathOps F) (c : Camera F) (xpos ypos : F) : Camera F :=
  let xoffset := xpos - c._xpos
  let yoffset := c._ypos - ypos
  let xoffset := xoffset * c._mouseSensitivity
  let yoffset := yoffset * c._mouseSensitivity
  let yaw := c._yaw + xoffset
  let pitch := c._pitch + yoffset
  let pitch := if pitch > 89 then 89 else pitch
  let pitch := if pitch < -89 then -89 else pitch
  let fx := M.cos (radians M yaw) * M.cos (radians M pitch)
  let fy := M.sin (radians M pitch)
  let fz := M.sin (radians M yaw) * M.cos (radians M pitch)
  { c with
    _xpos := xpos
    _ypos := ypos
    _yaw := yaw
    _pitch := pitch
    _facing := Vec3.normalize M ⟨fx, fy, fz⟩ }

/-- The method `Camera::Move(Direction d)`. -/
def Camera.Move (M : MathOps F) (c : Camera F) (d : Direction) : Camera F :=
  let dt : F := 0.02
  let position :=
    match d with
    | Direction.FORWARD => Vec3.add c._position (Vec3.scale c._facing dt)
    | Direction.BACKWARD => Vec3.sub c._position (Vec3.scale c._facing dt)
    | Direction.LEFT =>
        Vec3.sub c._position
          (Vec3.scale (Vec3.normalize M (Vec3.cross c._facing c._up)) dt)
    | Direction.RIGHT =>
        Vec3.add c._position
          (Vec3.scale (Vec3.normalize M (Vec3.cross c._facing c._up)) dt)
  { c with _position := { position with y := c._height } }

/-- The method `Camera::Zoom(float yoffset)`. -/
def Camera.Zoom (c : Camera F) (yoffset : F) : Camera F :=
  let zoom := c._zoom - yoffset
  let zoom := if zoom < 1 then 1 else zoom
  let zoom := if zoom > 45 then 45 else zoom
  { c with _zoom := zoom }

/-- The method `Camera::isDucking(bool b)`. -/
def Camera.isDucking (c : Camera F) (b : Bool) : Camera F :=
  let height : F := if b then HEIGHT - 0.25 else HEIGHT
  { c with _height := height, _position := { c._position with y := height } }

/-- The method `Camera::Jump()`. -/
def Camera.Jump (c : Camera F) : Camera F :=
  if c._jumpTime = -1 then { c with _jumpTime := 0 } else c

/-- The method `Camera::Tick()`. -/
def Camera.Tick (c : Camera F) : Camera F :=
  if c._jumpTime = -1 then c
  else
    let height := HEIGHT + 3.0 * c._jumpTime + 0.5 * -9.8 * c._jumpTime * c._jumpTime
    let c1 : Camera F :=
      { c with
        _height := height
        _position := { c._position with y := height }
        _jumpTime := c._jumpTime + 0.016 }
    if c1._height < HEIGHT then
      { c1 with
        _height := HEIGHT
        _position := { c1._position with y := HEIGHT }
        _jumpTime := -1 }
    else c1

end camera

/-! ## Call sequences on a camera -/

/-- Repeated ticks: `Camera::Tick()` called `n` times in a row. -/
def Camera.Ticks {F : Type} [LinearOrderedField F] : Nat → Camera F → Camera F
  | 0, c => c
  | n + 1, c => Camera.Tick (Camera.Ticks n c)

/-- One call of a public mutator of `Camera`, with its arguments. -/
inductive CameraOp (F : Type) where
  | Look (xpos ypos : F)
  | Move (d : Direction)
  | Zoom (yoffset : F)
  | isDucking (b : Bool)
  | Jump
  | Tick

/-- The camera after one call. -/
def Camera.call {F : Type} [LinearOrderedField F] (M : MathOps F) (c : Camera F) :
    CameraOp F → Camera F
  | CameraOp.Look xpos ypos => Camera.Look M c xpos ypos
  | CameraOp.Move d => Camera.Move M c d
  | CameraOp.Zoom yoffset => Camera.Zoom c yoffset
  | CameraOp.isDucking b => Camera.isDucking c b
  | CameraOp.Jump => Camera.Jump c
  | CameraOp.Tick => Camera.Tick c

/-- The camera after a sequence of calls, made in list order. -/
def Camera.run {F : Type} [LinearOrderedField F] (M : MathOps F) (c : Camera F)
    (ops : List (CameraOp F)) : Camera F :=
  ops.foldl (Camera.call M) c

/-- The direction vector the specification gives for each `Direction`:
`+facing`, `-facing`, `-normalize(facing × up)`, `+normalize(facing × up)`.
(Written from the specification, to be compared with `Camera.Move`.) -/
def Camera.specDirection {F : Type} [LinearOrderedField F] (M : MathOps F) (c : Camera F) :
    Direction → Vec3 F
  | Direction.FORWARD => c._facing
  | Direction.BACKWARD => Vec3.scale c._facing (-1)
  | Direction.LEFT => Vec3.scale (Vec3.normalize M (Vec3.cross c._facing c._up)) (-1)
  | Direction.RIGHT => Vec3.normalize M (Vec3.cross c._facing c._up)

/-! ## Scene (`src/Scene.cpp`) -/

/-- An `Object*` as `Scene` sees it: which object it is, and what its virtual
`render()` does when called.  The bodies of `render()` are in `Object.cpp`,
outside the sources; `Object.h` documents the one thing that matters to the
caller, `// Can throw a std::runtime_error`, so that is a parameter here. -/
structure Object where
  name : Nat
  renderThrows : Bool
  deriving DecidableEq, Repr

/-- The calls `Scene::draw` makes, in the order it makes them. -/
inductive GLCall where
  | glEnable (cap : String)
  | glBlendFunc (sfactor dfactor : String)
  | glDepthFunc (func : String)
  | glClearColor (r g b a : Nat)
  | glClear (mask : String)
  | render (o : Object)
  | glGetError
  | printErr (err : Nat)
  | glFlush
  deriving DecidableEq, Repr

/-- Code that logs its calls and may be ended by a C++ exception; the log
survives the exception. -/
abbrev Gfx := ExceptT String (StateM (List GLCall))

/-- Log one call. -/
def Gfx.log (c : GLCall) : Gfx Unit := modify (fun t => t ++ [c])

/-- The call `o->render()`. -/
def Object.render (o : Object) : Gfx Unit := do
  Gfx.log (GLCall.render o)
  if o.renderThrows then throw "std::runtime_error"

/-- The constant `GL_NO_ERROR`. -/
def GL_NO_ERROR : Nat := 0

/-- The members of `Scene` used by `Scene::draw` and `Scene::cleanUp`. -/
structure Scene where
  _skybox : Object
  _lightSrc : Object
  _objects : List Object
  deriving DecidableEq, Repr

/-- The loop `for (auto it : _objects) it->render();`. -/
def Scene.renderObjects : List Object → Gfx Unit
  | [] => pure ()
  | it :: rest => do
      it.render
      Scene.renderObjects rest

/-- The method `Scene::draw()`; `glError` is the value `glGetError()` returns. -/
def Scene.draw (s : Scene) (glError : Nat) : Gfx Unit := do
  Gfx.log (GLCall.glEnable "GL_BLEND")
  Gfx.log (GLCall.glBlendFunc "GL_SRC_ALPHA" "GL_ONE_MINUS_SRC_ALPHA")
  Gfx.log (GLCall.glEnable "GL_DEPTH_TEST")
  Gfx.log (GLCall.glDepthFunc "GL_LESS")
  Gfx.log (GLCall.glClearColor 0 0 0 1)
  Gfx.log (GLCall.glClear "GL_COLOR_BUFFER_BIT | GL_DEPTH_BUFFER_BIT")
  s._skybox.render
  s._lightSrc.render
  Scene.renderObjects s._objects
  Gfx.log GLCall.glGetError
  let err := glError
  if err ≠ GL_NO_ERROR then Gfx.log (GLCall.printErr err)
  Gfx.log GLCall.glFlush

/-- Run a piece of GL code from an empty log: how it ended, and the log. -/
def Gfx.exec (m : Gfx Unit) : Except String Unit × List GLCall :=
  (m.run.run []).run

/-- The objects whose `render()` was called, in call order. -/
def GLCall.renders : List GLCall → List Object
  | [] => []
  | GLCall.render o :: rest => o :: GLCall.renders rest
  | _ :: rest => GLCall.renders rest

/-- A list of objects cut after the first one whose `render()` throws: the
calls that are made when `render()` is called on each in turn. -/
def Object.untilThrow : List Object → List Object
  | [] => []
  | o :: rest => if o.renderThrows then [o] else o :: Object.untilThrow rest

/-- The sequence of render calls issued by one `draw()`. -/
def Scene.drawRenders (s : Scene) (glError : Nat) : List Object :=
  GLCall.renders (Gfx.exec (s.draw glError)).2

/-- The constructor `Scene::Scene(Camera* c)`, as far as ownership goes: the
objects it allocates with `new`, named in allocation order (skybox 0, light
source 1, then the seven objects pushed onto `_objects`).  What each
`render()` does is a parameter. -/
def Scene.new (renderThrows : Nat → Bool) : Scene :=
  { _skybox := ⟨0, renderThrows 0⟩
    _lightSrc := ⟨1, renderThrows 1⟩
    _objects :=
      [⟨2, renderThrows 2⟩, ⟨3, renderThrows 3⟩, ⟨4, renderThrows 4⟩, ⟨5, renderThrows 5⟩,
       ⟨6, renderThrows 6⟩, ⟨7, renderThrows 7⟩, ⟨8, renderThrows 8⟩] }

/-- The calls `Scene::cleanUp` makes on objects: `o->cleanUp()`, which releases
the GPU resources of `o`, and `delete o`, which destroys it. -/
inductive CleanUpCall where
  | cleanUp (o : Object)
  | delete (o : Object)
  deriving DecidableEq, Repr

/-- The loop `for (auto it : _objects) { it->cleanUp(); delete it; }`. -/
def Scene.cleanUpObjects : List Object → List CleanUpCall
  | [] => []
  | it :: rest =>
      CleanUpCall.cleanUp it :: CleanUpCall.delete it :: Scene.cleanUpObjects rest

/-- The method `Scene::cleanUp()`: the calls it makes, in order. -/
def Scene.cleanUp (s : Scene) : List CleanUpCall :=
  CleanUpCall.cleanUp s._skybox :: CleanUpCall.delete s._skybox
    :: Scene.cleanUpObjects s._objects

/-- The objects a `Scene` owns, as the specification lists them: the skybox,
the light source and each object of the sequence. -/
def Scene.owned (s : Scene) : List Object :=
  s._skybox :: s._lightSrc :: s._objects

/-- What the specification asks of a clean-up log for one object: its GPU
resources are released exactly once, it is destroyed exactly once, and the
release comes before the destruction. -/
def CleanUpCall.releasedThenDestroyed (log : List CleanUpCall) (o : Object) : Bool :=
  log.count (CleanUpCall.cleanUp o) == 1
    && log.count (CleanUpCall.delete o) == 1
    && decide (log.indexOf (CleanUpCall.cleanUp o) < log.indexOf (CleanUpCall.delete o))

/-! ## Object modifiers (`src/Objects/Object.h`) -/

/-- The "State information" members of `Object` that the modifiers write. -/
structure ObjectState (F : Type) where
  _lit : Bool
  _position : Vec3 F
  _size : F
  _rotationAxis : Vec3 F
  _rotationSpeed : F
  deriving DecidableEq, Repr

/-- How a modifier call ends: it returns, leaving the object in a state and
having written lines to `std::cerr`, or it throws. -/
abbrev Modified (F : Type) := Except String (ObjectState F × List String)

/-- The state of the object after a modifier call that returned; `none` when
the call threw. -/
def Modified.stateAfter {F : Type} : Modified F → Option (ObjectState F)
  | Except.ok (st, _) => some st
  | Except.error _ => none

section modifiers

variable {F : Type}

/-- The base modifier `Object::isLit(bool b)`. -/
def Object.isLit (st : ObjectState F) (b : Bool) : Modified F :=
  Except.ok ({ st with _lit := b }, [])

/-- The base modifier `Object::setSize(float s)`. -/
def Object.setSize (st : ObjectState F) (s : F) : Modified F :=
  Except.ok ({ st with _size := s }, [])

/-- The base modifier `Object::setRotation(glm::vec3 axis)`. -/
def Object.setRotation [Zero F] (st : ObjectState F) (axis : Vec3 F) : Modified F :=
  Except.ok ({ st with _rotationAxis := axis, _rotationSpeed := 0 }, [])

/-- The base modifier `Object::setRotation(glm::vec3 axis, float speed)`. -/
def Object.setRotationSpeed (st : ObjectState F) (axis : Vec3 F) (speed : F) : Modified F :=
  Except.ok ({ st with _rotationAxis := axis, _rotationSpeed := speed }, [])

/-- The override `SkyBox::isLit(bool)`. -/
def SkyBox.isLit (st : ObjectState F) (_b : Bool) : Modified F :=
  Except.ok (st, ["Error: can't change skybox lighting\n"])

/-- The override `SkyBox::setPosition(glm::vec3)`. -/
def SkyBox.setPosition (st : ObjectState F) (_p : Vec3 F) : Modified F :=
  Except.ok (st, ["Error: can't change skybox position\n"])

/-- The override `SkyBox::setSize(float)`. -/
def SkyBox.setSize (st : ObjectState F) (_s : F) : Modified F :=
  Except.ok (st, ["Error: can't change skybox size\n"])

/-- The override `SkyBox::setRotation(glm::vec3)`. -/
def SkyBox.setRotation (st : ObjectState F) (_axis : Vec3 F) : Modified F :=
  Except.ok (st, ["Error: can't change skybox rotation\n"])

/-- The override `SkyBox::setRotation(glm::vec3, float)`. -/
def SkyBox.setRotationSpeed (st : ObjectState F) (_axis : Vec3 F) (_speed : F) :
    Modified F :=
  Except.ok (st, ["Error: can't change skybox rotation\n"])

/-- The override `LightSource::setRotation(glm::vec3)`. -/
def LightSource.setRotation (st : ObjectState F) (_axis : Vec3 F) : Modified F :=
  Except.ok (st, ["Error: rotation not implemented for light sources\n"])

/-- The override `LightSource::setRotation(glm::vec3, float)`. -/
def LightSource.setRotationSpeed (st : ObjectState F) (_axis : Vec3 F) (_speed : F) :
    Modified F :=
  Except.ok (st, ["Error: rotation not implemented for light sources\n"])

/-- The override `Terrain::setPosition(glm::vec3 p)`. -/
def Terrain.setPosition (st : ObjectState F) (p : Vec3 F) : Modified F :=
  Except.ok ({ st with _position := p }, [])

/-- The override `Terrain::setSize(float)`. -/
def Terrain.setSize (st : ObjectState F) (_s : F) : Modified F :=
  Except.ok (st, ["Error: terrain size is a compile-time constant\n"])

/-- The override `Terrain::setRotation(glm::vec3)`. -/
def Terrain.setRotation (st : ObjectState F) (_axis : Vec3 F) : Modified F :=
  Except.ok (st, ["Error: can't change terrain rotation\n"])

/-- The override `Terrain::setRotation(glm::vec3, float)`. -/
def Terrain.setRotationSpeed (st : ObjectState F) (_axis : Vec3 F) (_speed : F) :
    Modified F :=
  Except.ok (st, ["Error: can't change terrain rotation\n"])

end modifiers

/-! ## Jump and Tick -/

section jump

variable {F : Type} [LinearOrderedField F]

/-- A tick of a camera that is not jumping changes nothing. -/
theorem Camera.Tick_grounded (c : Camera F) (h : c._jumpTime = -1) :
    Camera.Tick c = c := by
  simp [Camera.Tick, h]

/-- A tick in the rising or level part of the parabola: the height is the
parabola at the old jump-time and the jump-time advances by 0.016. -/
theorem Camera.Tick_airborne (c : Camera F) (h0 : 0 ≤ c._jumpTime)
    (h1 : c._jumpTime * 4.9 ≤ 3) :
    Camera.Tick c =
      { c with
        _height := HEIGHT + 3.0 * c._jumpTime + 0.5 * -9.8 * c._jumpTime * c._jumpTime
        _position :=
          { c._position with
            y := HEIGHT + 3.0 * c._jumpTime + 0.5 * -9.8 * c._jumpTime * c._jumpTime }
        _jumpTime := c._jumpTime + 0.016 } := by
  have hne : c._jumpTime ≠ -1 := by
    intro h
    rw [h] at h0
    norm_num at h0
  have hnot : ¬ (HEIGHT + 3.0 * c._jumpTime + 0.5 * -9.8 * c._jumpTime * c._jumpTime
      < (HEIGHT : F)) := by
    have hp : 0 ≤ c._jumpTime * (3 - c._jumpTime * 4.9) :=
      mul_nonneg h0 (by linarith)
    intro hlt
    norm_num at hlt
    nlinarith
  simp only [Camera.Tick, if_neg hne, if_neg hnot]

/-- While the parabola has not come back below the base height (up to the
39th tick), the jump-time after `k` ticks is `0.016 * k`. -/
theorem Camera.Ticks_jumpTime (xpos ypos : F) (k : Nat) (hk : k ≤ 39) :
    (Camera.Ticks k (Camera.Jump (Camera.new xpos ypos)))._jumpTime = 0.016 * (k : F) := by
  induction k with
  | zero => simp [Camera.Ticks, Camera.Jump, Camera.new]
  | succ k ih =>
    have hk1 : k ≤ 38 := by omega
    have hkF : (k : F) ≤ 38 := by exact_mod_cast hk1
    have hk0 : (0 : F) ≤ (k : F) := Nat.cast_nonneg k
    have ih1 := ih (by omega)
    have hstep := Camera.Tick_airborne
      (Camera.Ticks k (Camera.Jump (Camera.new xpos ypos)))
      (by rw [ih1]; positivity) (by rw [ih1]; norm_num; linarith)
    simp only [Camera.Ticks]
    rw [hstep]
    simp only [ih1]
    push_cast
    ring

/-- C1 (as stated, refuted): on the camera constructed at cursor (0, 0), after
`Jump()` and one `Tick()` the height is not 0.8 + 3.0*0.016 - 4.9*0.016^2: the
first tick evaluates the parabola at jump-time 0. -/
theorem Camera.jump_tick_height_ne :
    (Camera.Tick (Camera.Jump (Camera.new (0 : ℚ) 0)))._height
      ≠ 0.8 + 3.0 * 0.016 - 4.9 * 0.016 ^ 2 := by
  norm_num [Camera.Tick, Camera.Jump, Camera.new, HEIGHT]

/-- C1 (amended): from a freshly constructed camera, after `Jump()` and one
`Tick()` the height is the base height 0.8 and the jump-time is 0.016; after a
second `Tick()` the height is 0.8 + 3.0*0.016 - 4.9*0.016^2 and the jump-time
is 0.032. -/
theorem Camera.jump_tick_once_twice (xpos ypos : F) :
    (Camera.Tick (Camera.Jump (Camera.new xpos ypos)))._height = 0.8
    ∧ (Camera.Tick (Camera.Jump (Camera.new xpos ypos)))._jumpTime = 0.016
    ∧ (Camera.Tick (Camera.Tick (Camera.Jump (Camera.new xpos ypos))))._height
        = 0.8 + 3.0 * 0.016 - 4.9 * 0.016 ^ 2
    ∧ (Camera.Tick (Camera.Tick (Camera.Jump (Camera.new xpos ypos))))._jumpTime
        = 0.032 := by
  have h1 : Camera.Tick (Camera.Jump (Camera.new xpos ypos))
      = { Camera.new xpos ypos with _jumpTime := 0.016, _position := ⟨0, HEIGHT, 3⟩ } := by
    rw [Camera.Tick_airborne _ (by simp [Camera.Jump, Camera.new])
      (by norm_num [Camera.Jump, Camera.new])]
    simp [Camera.Jump, Camera.new]
  have h2 := Camera.Tick_airborne (Camera.Tick (Camera.Jump (Camera.new xpos ypos)))
    (by rw [h1]; norm_num) (by rw [h1]; norm_num)
  rw [h2, h1]
  refine ⟨?_, ?_, ?_, ?_⟩
  · simp [Camera.new, HEIGHT]
  · rfl
  · simp only [Camera.new, HEIGHT]
    norm_num
  · norm_num

/-- The 40th tick of a jump started on a fresh camera lands: the parabola at
jump-time 0.016 * 39 is below the base height. -/
theorem Camera.Ticks_forty (xpos ypos : F) :
    (Camera.Ticks 40 (Camera.Jump (Camera.new xpos ypos)))._jumpTime = -1
    ∧ (Camera.Ticks 40 (Camera.Jump (Camera.new xpos ypos)))._height = HEIGHT
    ∧ (Camera.Ticks 40 (Camera.Jump (Camera.new xpos ypos)))._position.y = HEIGHT := by
  have h39 := Camera.Ticks_jumpTime xpos ypos 39 (le_refl 39)
  have hne : (Camera.Ticks 39 (Camera.Jump (Camera.new xpos ypos)))._jumpTime ≠ -1 := by
    rw [h39]
    norm_num
  have hlt : HEIGHT + 3.0 * (Camera.Ticks 39 (Camera.Jump (Camera.new xpos ypos)))._jumpTime
      + 0.5 * -9.8 * (Camera.Ticks 39 (Camera.Jump (Camera.new xpos ypos)))._jumpTime
        * (Camera.Ticks 39 (Camera.Jump (Camera.new xpos ypos)))._jumpTime
      < (HEIGHT : F) := by
    rw [h39]
    norm_num
  have h40 : Camera.Ticks 40 (Camera.Jump (Camera.new xpos ypos))
      = Camera.Tick (Camera.Ticks 39 (Camera.Jump (Camera.new xpos ypos))) := rfl
  rw [h40]
  simp only [Camera.Tick, if_neg hne, if_pos hlt]
  exact ⟨trivial, trivial, trivial⟩

/-- C2: from a freshly constructed camera, after `Jump()` there is a number
`n ≥ 1` of consecutive `Tick()` calls (in exact arithmetic, `n = 40`) after
which the jump-time is -1 again and the height and the vertical coordinate of
the position are exactly 0.8, while after every smaller number of ticks the
jump-time is not -1. -/
theorem Camera.jump_lands (xpos ypos : F) :
    ∃ n : Nat, 1 ≤ n
      ∧ (Camera.Ticks n (Camera.Jump (Camera.new xpos ypos)))._jumpTime = -1
      ∧ (Camera.Ticks n (Camera.Jump (Camera.new xpos ypos)))._height = 0.8
      ∧ (Camera.Ticks n (Camera.Jump (Camera.new xpos ypos)))._position.y = 0.8
      ∧ ∀ k : Nat, k < n →
          (Camera.Ticks k (Camera.Jump (Camera.new xpos ypos)))._jumpTime ≠ -1 := by
  obtain ⟨ht, hh, hp⟩ := Camera.Ticks_forty xpos ypos
  refine ⟨40, by norm_num, ht, hh, hp, ?_⟩
  intro k hk
  rw [Camera.Ticks_jumpTime xpos ypos k (by omega)]
  have hk0 : (0 : F) ≤ (k : F) := Nat.cast_nonneg k
  intro h
  linarith

end jump

/-! ## Invariants of the camera -/

section invariants

variable {F : Type} [LinearOrderedField F]

/-- An invariant kept by every call is kept by every sequence of calls. -/
theorem Camera.run_induction (M : MathOps F) (P : Camera F → Prop)
    (hstep : ∀ (c : Camera F) (op : CameraOp F), P c → P (Camera.call M c op))
    (ops : List (CameraOp F)) (c : Camera F) (h : P c) : P (Camera.run M c ops) := by
  induction ops generalizing c with
  | nil => exact h
  | cons op rest ih => exact ih (Camera.call M c op) (hstep c op h)

/-- The pitch written by `Look` lies in [-89, 89], whatever the state before. -/
theorem Camera.Look_pitch_bounds (M : MathOps F) (c : Camera F) (xpos ypos : F) :
    -89 ≤ (Camera.Look M c xpos ypos)._pitch ∧ (Camera.Look M c xpos ypos)._pitch ≤ 89 := by
  simp only [Camera.Look]
  split_ifs with h1 h2 h3 <;> constructor <;> linarith

/-- The zoom written by `Zoom` is the old zoom minus the offset, clamped. -/
theorem Camera.Zoom_zoom_eq (c : Camera F) (yoffset : F) :
    (Camera.Zoom c yoffset)._zoom = min (max (c._zoom - yoffset) 1) 45 := by
  simp only [Camera.Zoom]
  split_ifs with h1 h2 h3
  · norm_num at h2
  · rw [max_eq_right (le_of_lt h1), min_eq_left (by norm_num)]
  · rw [max_eq_left (le_of_not_lt h1), min_eq_right (le_of_lt h3)]
  · rw [max_eq_left (le_of_not_lt h1), min_eq_left (le_of_not_lt h3)]

/-- After a tick the height is unchanged or at least the base height. -/
theorem Camera.Tick_height (c : Camera F) :
    (Camera.Tick c)._height = c._height ∨ HEIGHT ≤ (Camera.Tick c)._height := by
  simp only [Camera.Tick]
  split_ifs with h1 h2
  · exact Or.inl rfl
  · exact Or.inr (le_refl _)
  · exact Or.inr (le_of_not_lt h2)

/-- C3: after `Look(x, y)` the pitch lies in [-89, 89] for every camera state
and every cursor position; no other call writes the pitch; hence the pitch lies
in [-89, 89] after every sequence of calls on a freshly constructed camera. -/
theorem Camera.pitch_clamped (M : MathOps F) :
    (∀ (c : Camera F) (xpos ypos : F),
        -89 ≤ (Camera.Look M c xpos ypos)._pitch ∧ (Camera.Look M c xpos ypos)._pitch ≤ 89)
    ∧ (∀ (c : Camera F) (d : Direction) (yoffset : F) (b : Bool),
        (Camera.Move M c d)._pitch = c._pitch ∧ (Camera.Zoom c yoffset)._pitch = c._pitch
        ∧ (Camera.isDucking c b)._pitch = c._pitch ∧ (Camera.Jump c)._pitch = c._pitch
        ∧ (Camera.Tick c)._pitch = c._pitch)
    ∧ (∀ (xpos ypos : F) (ops : List (CameraOp F)),
        -89 ≤ (Camera.run M (Camera.new xpos ypos) ops)._pitch
        ∧ (Camera.run M (Camera.new xpos ypos) ops)._pitch ≤ 89) := by
  have hframe : ∀ (c : Camera F) (d : Direction) (yoffset : F) (b : Bool),
      (Camera.Move M c d)._pitch = c._pitch ∧ (Camera.Zoom c yoffset)._pitch = c._pitch
      ∧ (Camera.isDucking c b)._pitch = c._pitch ∧ (Camera.Jump c)._pitch = c._pitch
      ∧ (Camera.Tick c)._pitch = c._pitch := by
    intro c d yoffset b
    refine ⟨rfl, rfl, rfl, ?_, ?_⟩
    · simp only [Camera.Jump]
      split_ifs <;> rfl
    · simp only [Camera.Tick]
      split_ifs <;> rfl
  refine ⟨Camera.Look_pitch_bounds M, hframe, ?_⟩
  intro xpos ypos ops
  apply Camera.run_induction M (fun c => -89 ≤ c._pitch ∧ c._pitch ≤ 89)
  · intro c op h
    cases op with
    | Look x y => exact Camera.Look_pitch_bounds M c x y
    | Move d => exact h
    | Zoom o => exact h
    | isDucking b => exact h
    | Jump => rw [Camera.call, (hframe c Direction.FORWARD 0 true).2.2.2.1]; exact h
    | Tick => rw [Camera.call, (hframe c Direction.FORWARD 0 true).2.2.2.2]; exact h
  · simp only [Camera.new]
    constructor <;> norm_num

/-- C4: after `Zoom(offset)` the zoom is the old zoom minus the offset, clamped
to [1, 45]; so it lies in [1, 45] after every `Zoom` call, and in every state
reached from the constructor by a sequence of calls. -/
theorem Camera.zoom_clamped (M : MathOps F) :
    (∀ (c : Camera F) (yoffset : F),
        (Camera.Zoom c yoffset)._zoom = min (max (c._zoom - yoffset) 1) 45
        ∧ 1 ≤ (Camera.Zoom c yoffset)._zoom ∧ (Camera.Zoom c yoffset)._zoom ≤ 45)
    ∧ (∀ xpos ypos : F, (Camera.new xpos ypos)._zoom = 45)
    ∧ (∀ (xpos ypos : F) (ops : List (CameraOp F)),
        1 ≤ (Camera.run M (Camera.new xpos ypos) ops)._zoom
        ∧ (Camera.run M (Camera.new xpos ypos) ops)._zoom ≤ 45) := by
  have hz : ∀ (c : Camera F) (yoffset : F),
      (Camera.Zoom c yoffset)._zoom = min (max (c._zoom - yoffset) 1) 45
      ∧ 1 ≤ (Camera.Zoom c yoffset)._zoom ∧ (Camera.Zoom c yoffset)._zoom ≤ 45 := by
    intro c yoffset
    refine ⟨Camera.Zoom_zoom_eq c yoffset, ?_, ?_⟩
    · rw [Camera.Zoom_zoom_eq]
      exact le_min (le_max_right _ _) (by norm_num)
    · rw [Camera.Zoom_zoom_eq]
      exact min_le_right _ _
  refine ⟨hz, fun _ _ => rfl, ?_⟩
  intro xpos ypos ops
  apply Camera.run_induction M (fun c => 1 ≤ c._zoom ∧ c._zoom ≤ 45)
  · intro c op h
    cases op with
    | Look x y => exact h
    | Move d => exact h
    | Zoom o => exact (hz c o).2
    | isDucking b => exact h
    | Jump =>
      simp only [Camera.call, Camera.Jump]
      split_ifs <;> exact h
    | Tick =>
      simp only [Camera.call, Camera.Tick]
      split_ifs <;> exact h
  · simp only [Camera.new]
    constructor <;> norm_num

/-- C9: in every state reached from the constructor by a sequence of `Look`,
`Move`, `Zoom`, `isDucking`, `Jump` and `Tick` calls, the height is at least
the base standing height minus the duck offset, 0.8 - 0.25. -/
theorem Camera.height_lower_bound (M : MathOps F) (xpos ypos : F)
    (ops : List (CameraOp F)) :
    0.8 - 0.25 ≤ (Camera.run M (Camera.new xpos ypos) ops)._height := by
  apply Camera.run_induction M (fun c => (0.8 : F) - 0.25 ≤ c._height)
  · intro c op h
    cases op with
    | Look x y => exact h
    | Move d => exact h
    | Zoom o => exact h
    | isDucking b =>
      simp only [Camera.call, Camera.isDucking, HEIGHT]
      cases b <;> norm_num
    | Jump =>
      simp only [Camera.call, Camera.Jump]
      split_ifs <;> exact h
    | Tick =>
      simp only [Camera.call]
      rcases Camera.Tick_height c with h1 | h1
      · rw [h1]; exact h
      · have h2 : (0.8 : F) - 0.25 ≤ HEIGHT := by norm_num [HEIGHT]
        exact le_trans h2 h1
  · norm_num [Camera.new, HEIGHT]

end invariants

/-! ## Look, Move, Jump, isDucking -/

section mutators

variable {F : Type} [LinearOrderedField F]

/-- With a cosine and sine on the unit circle and `sqrt 1 = 1`, the facing
vector computed by `Look` has squared length 1. -/
theorem Camera.facing_unit_of_circle (M : MathOps F)
    (hcs : ∀ a : F, M.cos a ^ 2 + M.sin a ^ 2 = 1) (hsqrt : M.sqrt 1 = 1)
    (c : Camera F) (xpos ypos : F) :
    (Camera.Look M c xpos ypos)._facing.x ^ 2 + (Camera.Look M c xpos ypos)._facing.y ^ 2
      + (Camera.Look M c xpos ypos)._facing.z ^ 2 = 1 := by
  have key : ∀ a b : F, Vec3.dot (⟨M.cos a * M.cos b, M.sin b, M.sin a * M.cos b⟩ : Vec3 F)
      ⟨M.cos a * M.cos b, M.sin b, M.sin a * M.cos b⟩ = 1 := by
    intro a b
    have ha := hcs a
    have hb := hcs b
    simp only [Vec3.dot]
    calc M.cos a * M.cos b * (M.cos a * M.cos b) + M.sin b * M.sin b
          + M.sin a * M.cos b * (M.sin a * M.cos b)
        = (M.cos a ^ 2 + M.sin a ^ 2) * M.cos b ^ 2 + M.sin b ^ 2 := by ring
      _ = 1 := by rw [ha, one_mul, hb]
  have hn : ∀ v : Vec3 F, Vec3.dot v v = 1 → Vec3.normalize M v = v := by
    intro v hv
    simp only [Vec3.normalize, hv, hsqrt, Vec3.scale, div_one, mul_one]
  have hsq : ∀ v : Vec3 F, v.x ^ 2 + v.y ^ 2 + v.z ^ 2 = Vec3.dot v v := by
    intro v
    simp only [Vec3.dot]
    ring
  simp only [Camera.Look]
  rw [hn _ (key _ _), hsq, key]

/-- C5: over the real numbers, after `Look(x, y)` the facing vector is the
normalisation of (cos(yaw)cos(pitch), sin(pitch), sin(yaw)cos(pitch)), taken at
the updated yaw and the clamped pitch (in radians), and it has unit length:
facing.x^2 + facing.y^2 + facing.z^2 = 1. -/
theorem Camera.Look_facing_unit (c : Camera ℝ) (xpos ypos : ℝ) :
    let M : MathOps ℝ := ⟨Real.cos, Real.sin, Real.sqrt, Real.pi⟩
    let c1 := Camera.Look M c xpos ypos
    c1._facing = Vec3.normalize M
        ⟨Real.cos (radians M c1._yaw) * Real.cos (radians M c1._pitch),
         Real.sin (radians M c1._pitch),
         Real.sin (radians M c1._yaw) * Real.cos (radians M c1._pitch)⟩
    ∧ c1._facing.x ^ 2 + c1._facing.y ^ 2 + c1._facing.z ^ 2 = 1 := by
  intro M c1
  refine ⟨rfl, ?_⟩
  exact Camera.facing_unit_of_circle M (fun a => Real.cos_sq_add_sin_sq a) Real.sqrt_one
    c xpos ypos

/-- C6: for every camera state and each of the four directions, `Move(d)`
displaces the position by 0.02 times the direction vector of `d` and then sets
the vertical coordinate to the current height, changing no other field; on a
freshly constructed camera one `Move(FORWARD)` gives the position
(0, 0.8, 2.98). -/
theorem Camera.Move_displaces (M : MathOps F) :
    (∀ (c : Camera F) (d : Direction),
        Camera.Move M c d =
          { c with
            _position :=
              { Vec3.add c._position (Vec3.scale (Camera.specDirection M c d) 0.02) with
                y := c._height } })
    ∧ (∀ xpos ypos : F,
        (Camera.Move M (Camera.new xpos ypos) Direction.FORWARD)._position
          = ⟨0, 0.8, 2.98⟩) := by
  constructor
  · intro c d
    cases d <;>
      simp only [Camera.Move, Camera.specDirection, Vec3.add, Vec3.sub, Vec3.scale] <;>
      congr 2 <;> ring
  · intro xpos ypos
    simp only [Camera.Move, Camera.new, Vec3.add, Vec3.scale, HEIGHT]
    congr 1 <;> norm_num

/-- C7: while a jump is in progress (jump-time not -1) `Jump()` changes no
field of the camera; when the jump-time is -1 it sets the jump-time to 0 and
changes nothing else. -/
theorem Camera.Jump_guard (c : Camera F) :
    (c._jumpTime ≠ -1 → Camera.Jump c = c)
    ∧ (c._jumpTime = -1 → Camera.Jump c = { c with _jumpTime := 0 }) := by
  constructor
  · intro h
    simp only [Camera.Jump, if_neg h]
  · intro h
    simp only [Camera.Jump, if_pos h]

/-- Witness for C7: one camera in mid-jump (jump-time 1/2), one grounded. -/
theorem Camera.Jump_guard_witness :
    Camera.Jump ({ Camera.new (0 : ℚ) 0 with _jumpTime := 1 / 2 })
        = { Camera.new (0 : ℚ) 0 with _jumpTime := 1 / 2 }
    ∧ Camera.Jump (Camera.new (0 : ℚ) 0) = { Camera.new (0 : ℚ) 0 with _jumpTime := 0 } :=
  ⟨(Camera.Jump_guard ({ Camera.new (0 : ℚ) 0 with _jumpTime := 1 / 2 })).1
      (by norm_num),
   (Camera.Jump_guard (Camera.new (0 : ℚ) 0)).2 rfl⟩

/-- C8: for every camera state, `isDucking(true)` gives height 0.8 - 0.25, and
`isDucking(true)` followed by `isDucking(false)` gives height 0.8 with
the vertical coordinate of the position equal to it; when the height before
was the standing height 0.8 (a grounded camera that is not ducking), this is
the height before. -/
theorem Camera.duck_unduck (c : Camera F) :
    (Camera.isDucking c true)._height = 0.8 - 0.25
    ∧ (Camera.isDucking c true)._position.y = 0.8 - 0.25
    ∧ (Camera.isDucking (Camera.isDucking c true) false)._height = 0.8
    ∧ (Camera.isDucking (Camera.isDucking c true) false)._position.y = 0.8
    ∧ (c._height = 0.8 →
        (Camera.isDucking (Camera.isDucking c true) false)._height = c._height) := by
  refine ⟨rfl, rfl, rfl, rfl, ?_⟩
  intro h
  rw [h]
  rfl

/-- Witness for C8: the freshly constructed camera stands at height 0.8, and
ducking then standing up gives that height back. -/
theorem Camera.duck_unduck_witness :
    (Camera.new (0 : ℚ) 0)._height = 0.8
    ∧ (Camera.isDucking (Camera.isDucking (Camera.new (0 : ℚ) 0) true) false)._height
        = (Camera.new (0 : ℚ) 0)._height :=
  ⟨rfl, (Camera.duck_unduck (Camera.new (0 : ℚ) 0)).2.2.2.2 rfl⟩

end mutators

/-! ## Scene.draw -/

section draw

/-- Running from a given log: how a piece of code ended, and the log after. -/
theorem Gfx.run_bind {α β : Type} (m : Gfx α) (f : α → Gfx β) (t : List GLCall) :
    (m >>= f).run.run t =
      match m.run.run t with
      | (Except.ok a, t1) => (f a).run.run t1
      | (Except.error e, t1) => (Except.error e, t1) := by
  show (ExceptT.bind m f).run.run t = _
  unfold ExceptT.bind ExceptT.bindCont ExceptT.mk ExceptT.run
  simp only [StateT.run_bind]
  rcases h : StateT.run m t with ⟨r, t1⟩
  cases r <;> rfl

/-- Logging a call appends it and returns. -/
theorem Gfx.run_log (c : GLCall) (t : List GLCall) :
    (Gfx.log c).run.run t = (Except.ok (), t ++ [c]) := rfl

/-- A `render()` call is logged; it returns or throws as the object says. -/
theorem Object.run_render (o : Object) (t : List GLCall) :
    o.render.run.run t =
      (if o.renderThrows then Except.error "std::runtime_error" else Except.ok (),
        t ++ [GLCall.render o]) := by
  unfold Object.render
  rw [Gfx.run_bind, Gfx.run_log]
  cases o.renderThrows <;> rfl

/-- The render calls in a log extended by more calls. -/
theorem GLCall.renders_append (a b : List GLCall) :
    GLCall.renders (a ++ b) = GLCall.renders a ++ GLCall.renders b := by
  induction a with
  | nil => rfl
  | cons c rest ih => cases c <;> simp [GLCall.renders, ih]

/-- The render calls in a log made of render calls only. -/
theorem GLCall.renders_map_render (os : List Object) :
    GLCall.renders (os.map GLCall.render) = os := by
  induction os with
  | nil => rfl
  | cons o rest ih => simp [GLCall.renders, ih]

/-- When no `render()` throws, nothing is cut. -/
theorem Object.untilThrow_of_all_return (os : List Object)
    (h : ∀ o ∈ os, o.renderThrows = false) : Object.untilThrow os = os := by
  induction os with
  | nil => rfl
  | cons o rest ih =>
    have ho : o.renderThrows = false := h o (List.mem_cons_self o rest)
    have hr : ∀ x ∈ rest, x.renderThrows = false :=
      fun x hx => h x (List.mem_cons_of_mem o hx)
    simp [Object.untilThrow, ho, ih hr]

/-- The loop over the object list: it logs the render calls up to the first
one that throws, and returns iff none throws. -/
theorem Scene.run_renderObjects (os : List Object) (t : List GLCall) :
    (Scene.renderObjects os).run.run t =
      (if os.all (fun o => !o.renderThrows) then Except.ok ()
        else Except.error "std::runtime_error",
        t ++ (Object.untilThrow os).map GLCall.render) := by
  induction os generalizing t with
  | nil => simp [Scene.renderObjects, Object.untilThrow]
  | cons o rest ih =>
    unfold Scene.renderObjects
    rw [Gfx.run_bind, Object.run_render]
    cases h : o.renderThrows
    · simp [ih, Object.untilThrow, h]
    · simp [Object.untilThrow, h]

/-- Returning a value leaves the log alone. -/
theorem Gfx.run_pure {α : Type} (a : α) (t : List GLCall) :
    (pure a : Gfx α).run.run t = (Except.ok a, t) := rfl

/-- The render calls of one `draw()` are the skybox, the light source and the
objects in list order, cut after the first `render()` that throws. -/
theorem Scene.drawRenders_eq (s : Scene) (glError : Nat) :
    Scene.drawRenders s glError
      = Object.untilThrow (s._skybox :: s._lightSrc :: s._objects) := by
  unfold Scene.drawRenders Gfx.exec Scene.draw
  simp only [Gfx.run_bind, Gfx.run_log, Object.run_render, Scene.run_renderObjects,
    Id.run]
  cases h1 : s._skybox.renderThrows
  · cases h2 : s._lightSrc.renderThrows
    · cases h3 : s._objects.all (fun o => !o.renderThrows)
      · simp [Object.untilThrow, h1, h2, GLCall.renders_append, GLCall.renders,
        GLCall.renders_map_render]
      · by_cases he : glError = GL_NO_ERROR
        · simp [Object.untilThrow, h1, h2, he, Gfx.run_pure, Gfx.run_log,
            GLCall.renders_append, GLCall.renders,
        GLCall.renders_map_render]
        · simp [Object.untilThrow, h1, h2, he, Gfx.run_pure, Gfx.run_log,
            GLCall.renders_append, GLCall.renders,
        GLCall.renders_map_render]
    · simp [Object.untilThrow, h1, h2, GLCall.renders_append, GLCall.renders,
        GLCall.renders_map_render]
  · simp [Object.untilThrow, h1, GLCall.renders_append, GLCall.renders,
        GLCall.renders_map_render]

/-- When no `render()` throws, `draw()` returns normally. -/
theorem Scene.draw_returns (s : Scene) (glError : Nat)
    (h : ∀ o ∈ s._skybox :: s._lightSrc :: s._objects, o.renderThrows = false) :
    (Gfx.exec (s.draw glError)).1 = Except.ok () := by
  have h1 : s._skybox.renderThrows = false := h _ (List.mem_cons_self _ _)
  have h2 : s._lightSrc.renderThrows = false :=
    h _ (List.mem_cons_of_mem _ (List.mem_cons_self _ _))
  have h3 : s._objects.all (fun o => !o.renderThrows) = true := by
    rw [List.all_eq_true]
    intro o ho
    simp [h o (List.mem_cons_of_mem _ (List.mem_cons_of_mem _ ho))]
  unfold Gfx.exec Scene.draw
  simp only [Gfx.run_bind, Gfx.run_log, Object.run_render, Scene.run_renderObjects,
    Id.run, h1, h2, h3]
  by_cases he : glError = GL_NO_ERROR
  · simp [he, Gfx.run_pure, Gfx.run_log]
  · simp [he, Gfx.run_pure, Gfx.run_log]

/-- C10 (as stated, refuted): in a scene whose first list object throws from
`render()`, `draw()` issues the render calls of the skybox, the light source
and that object only; the second list object is never rendered. -/
theorem Scene.draw_stops_at_throw :
    Scene.drawRenders ⟨⟨0, false⟩, ⟨1, false⟩, [⟨2, true⟩, ⟨3, false⟩]⟩ GL_NO_ERROR
      ≠ [⟨0, false⟩, ⟨1, false⟩, ⟨2, true⟩, ⟨3, false⟩] := by
  decide

/-- C10 (amended): the render calls issued by one `draw()` are the skybox,
then the light source, then the objects in insertion order, each once, cut
after the first `render()` that throws; when no `render()` throws, `draw()`
returns normally and the sequence is exactly the skybox, the light source and
every object of the list in insertion order. -/
theorem Scene.draw_render_order (s : Scene) (glError : Nat) :
    Scene.drawRenders s glError
        = Object.untilThrow (s._skybox :: s._lightSrc :: s._objects)
    ∧ ((∀ o ∈ s._skybox :: s._lightSrc :: s._objects, o.renderThrows = false) →
        (Gfx.exec (s.draw glError)).1 = Except.ok ()
        ∧ Scene.drawRenders s glError = s._skybox :: s._lightSrc :: s._objects) := by
  refine ⟨Scene.drawRenders_eq s glError, ?_⟩
  intro h
  refine ⟨Scene.draw_returns s glError h, ?_⟩
  rw [Scene.drawRenders_eq, Object.untilThrow_of_all_return _ h]

/-- Witness for C10: a scene with two list objects, none of which throws. -/
theorem Scene.draw_render_order_witness :
    (Gfx.exec (Scene.draw ⟨⟨0, false⟩, ⟨1, false⟩, [⟨2, false⟩, ⟨3, false⟩]⟩ 7)).1
        = Except.ok ()
    ∧ Scene.drawRenders ⟨⟨0, false⟩, ⟨1, false⟩, [⟨2, false⟩, ⟨3, false⟩]⟩ 7
        = [⟨0, false⟩, ⟨1, false⟩, ⟨2, false⟩, ⟨3, false⟩] :=
  (Scene.draw_render_order ⟨⟨0, false⟩, ⟨1, false⟩, [⟨2, false⟩, ⟨3, false⟩]⟩ 7).2
    (by decide)

end draw

/-! ## Scene.cleanUp -/

section cleanUp

/-- Every call of the clean-up loop is made on an object of the list. -/
theorem Scene.mem_cleanUpObjects (os : List Object) (c : CleanUpCall) :
    c ∈ Scene.cleanUpObjects os ↔
      ∃ o ∈ os, c = CleanUpCall.cleanUp o ∨ c = CleanUpCall.delete o := by
  induction os with
  | nil => simp [Scene.cleanUpObjects]
  | cons a rest ih =>
    simp only [Scene.cleanUpObjects, List.mem_cons, ih]
    constructor
    · rintro (h | h | ⟨o, ho, h⟩)
      · exact ⟨a, Or.inl rfl, Or.inl h⟩
      · exact ⟨a, Or.inl rfl, Or.inr h⟩
      · exact ⟨o, Or.inr ho, h⟩
    · rintro ⟨o, (rfl | ho), h⟩
      · rcases h with h | h
        · exact Or.inl h
        · exact Or.inr (Or.inl h)
      · exact Or.inr (Or.inr ⟨o, ho, h⟩)

/-- The clean-up loop over a list without repetition releases and then destroys
each object of the list, each exactly once. -/
theorem Scene.cleanUpObjects_releases (os : List Object) (hnd : os.Nodup)
    (o : Object) (ho : o ∈ os) :
    CleanUpCall.releasedThenDestroyed (Scene.cleanUpObjects os) o = true := by
  induction os with
  | nil => simp at ho
  | cons a rest ih =>
    have ha : a ∉ rest := (List.nodup_cons.mp hnd).1
    have hrest : rest.Nodup := (List.nodup_cons.mp hnd).2
    by_cases hoa : o = a
    · subst hoa
      have h1 : CleanUpCall.cleanUp o ∉ Scene.cleanUpObjects rest := by
        rw [Scene.mem_cleanUpObjects]
        rintro ⟨x, hx, h | h⟩
        · injection h with h; exact ha (h ▸ hx)
        · cases h
      have h2 : CleanUpCall.delete o ∉ Scene.cleanUpObjects rest := by
        rw [Scene.mem_cleanUpObjects]
        rintro ⟨x, hx, h | h⟩
        · cases h
        · injection h with h; exact ha (h ▸ hx)
      simp [CleanUpCall.releasedThenDestroyed, Scene.cleanUpObjects,
        List.count_eq_zero.mpr h1, List.count_eq_zero.mpr h2, List.indexOf_cons]
    · have hor : o ∈ rest := by
        rcases List.mem_cons.mp ho with h | h
        · exact absurd h hoa
        · exact h
      have ih1 := ih hrest hor
      have hne : a ≠ o := fun h => hoa h.symm
      simp only [CleanUpCall.releasedThenDestroyed, Bool.and_eq_true, beq_iff_eq,
        decide_eq_true_eq] at ih1 ⊢
      simp [Scene.cleanUpObjects, List.indexOf_cons, hoa, hne, ih1.1.1, ih1.1.2, ih1.2]

/-- What `cleanUp()` does do: when the skybox and the list objects are all
different objects, each of them is released and then destroyed exactly once. -/
theorem Scene.cleanUp_releases_skybox_and_objects (s : Scene)
    (hnd : (s._skybox :: s._objects).Nodup) (o : Object)
    (ho : o ∈ s._skybox :: s._objects) :
    CleanUpCall.releasedThenDestroyed (Scene.cleanUp s) o = true :=
  Scene.cleanUpObjects_releases (s._skybox :: s._objects) hnd o ho

/-- C11 (code defect): the claim asks `cleanUp()` to release and then destroy
every owned object, the light source included, exactly once.  In the code no
call of `cleanUp()` is made on the light source: when the light source is an
object of its own (not the skybox, not in the list), its resources are not
released and it is not deleted. -/
theorem Scene.cleanUp_skips_lightSrc (s : Scene) (h1 : s._lightSrc ≠ s._skybox)
    (h2 : s._lightSrc ∉ s._objects) :
    s._lightSrc ∈ Scene.owned s
    ∧ CleanUpCall.cleanUp s._lightSrc ∉ Scene.cleanUp s
    ∧ CleanUpCall.delete s._lightSrc ∉ Scene.cleanUp s
    ∧ CleanUpCall.releasedThenDestroyed (Scene.cleanUp s) s._lightSrc = false := by
  have hc : CleanUpCall.cleanUp s._lightSrc ∉ Scene.cleanUp s := by
    simp only [Scene.cleanUp, List.mem_cons, Scene.mem_cleanUpObjects]
    rintro (h | h | ⟨x, hx, h | h⟩)
    · injection h with h; exact h1 h
    · cases h
    · injection h with h; exact h2 (h ▸ hx)
    · cases h
  have hd : CleanUpCall.delete s._lightSrc ∉ Scene.cleanUp s := by
    simp only [Scene.cleanUp, List.mem_cons, Scene.mem_cleanUpObjects]
    rintro (h | h | ⟨x, hx, h | h⟩)
    · cases h
    · injection h with h; exact h1 h
    · cases h
    · injection h with h; exact h2 (h ▸ hx)
  refine ⟨by simp [Scene.owned], hc, hd, ?_⟩
  simp [CleanUpCall.releasedThenDestroyed, List.count_eq_zero.mpr hc]

/-- Witness for C11: the scene built by the constructor.  No clean-up call is
made on its light source (object 1). -/
theorem Scene.cleanUp_skips_lightSrc_witness :
    (⟨1, false⟩ : Object) ∈ Scene.owned (Scene.new (fun _ => false))
    ∧ CleanUpCall.cleanUp ⟨1, false⟩ ∉ Scene.cleanUp (Scene.new (fun _ => false))
    ∧ CleanUpCall.delete ⟨1, false⟩ ∉ Scene.cleanUp (Scene.new (fun _ => false))
    ∧ CleanUpCall.releasedThenDestroyed (Scene.cleanUp (Scene.new (fun _ => false)))
        ⟨1, false⟩ = false :=
  Scene.cleanUp_skips_lightSrc (Scene.new (fun _ => false)) (by decide) (by decide)

/-- On the scene built by the constructor, of the nine owned objects all but
the light source are released and then destroyed exactly once. -/
theorem Scene.cleanUp_new_released :
    (Scene.owned (Scene.new (fun _ => false))).map
        (CleanUpCall.releasedThenDestroyed (Scene.cleanUp (Scene.new (fun _ => false))))
      = [true, false, true, true, true, true, true, true, true] := by
  decide

end cleanUp

/-! ## Unsupported modifiers -/

section unsupported

variable {F : Type}

/-- C12: a modifier that a variant does not support returns normally and leaves
the state of the object (lit flag, position, size, rotation axis, rotation
speed) as it was: for `SkyBox`, `isLit`, `setPosition`, `setSize` and both
`setRotation` overloads; for `LightSource`, both `setRotation` overloads; for
`Terrain`, `setSize` and both `setRotation` overloads.  The modifier
`Terrain::setPosition(p)` returns normally and sets the position to `p`,
changing nothing else. -/
theorem Modified.unsupported_keeps_state (st : ObjectState F) (b : Bool)
    (p axis : Vec3 F) (size speed : F) :
    Modified.stateAfter (SkyBox.isLit st b) = some st
    ∧ Modified.stateAfter (SkyBox.setPosition st p) = some st
    ∧ Modified.stateAfter (SkyBox.setSize st size) = some st
    ∧ Modified.stateAfter (SkyBox.setRotation st axis) = some st
    ∧ Modified.stateAfter (SkyBox.setRotationSpeed st axis speed) = some st
    ∧ Modified.stateAfter (LightSource.setRotation st axis) = some st
    ∧ Modified.stateAfter (LightSource.setRotationSpeed st axis speed) = some st
    ∧ Modified.stateAfter (Terrain.setSize st size) = some st
    ∧ Modified.stateAfter (Terrain.setRotation st axis) = some st
    ∧ Modified.stateAfter (Terrain.setRotationSpeed st axis speed) = some st
    ∧ Modified.stateAfter (Terrain.setPosition st p) = some { st with _position := p } :=
  ⟨rfl, rfl, rfl, rfl, rfl, rfl, rfl, rfl, rfl, rfl, rfl⟩

end unsupported
